import Mathlib

/-!
Verification of the satellite solar-panel power simulator.

The development shallowly embeds the core of the repository:

* `src/app/services/orbit_propagator.py` — the circular orbit propagator
  (`CircularOrbitPropagator`), the shadow detector (`is_in_shadow`), the
  power model (`calculate_power`) and the time-stepped simulation loop
  (`SolarPanelSimulator.run_simulation`).
* `src/app/services/simulator.py` — the service layer
  (`SimulationService.run_simulation`, `calculate_statistics`,
  `prepare_data_points`).

Geometry is embedded over the exact reals (numpy floating point is read as
exact real arithmetic; where numpy produces NaN from a division by zero the
Lean convention x / 0 = 0 is used and each such site is checked to land in
the same branch as the NaN propagation does in Python).  The counting and
statistics layer is embedded over the rationals so that it is executable.
External collaborators (skyfield ephemeris, the SGP4 propagator, matplotlib,
the database session) are modelled as oracles that either return a value or
fail, mirroring Python exceptions with the Except monad.
-/

/-! ## Physical constants (orbit_propagator.py lines 32-33, 117-118) -/

def EARTH_RADIUS_KM : ℝ := 6371

def EARTH_MU : ℝ := 398600.4418

def SOLAR_CONSTANT : ℝ := 1361

/-! ## 3-vectors of kilometres (numpy arrays of length 3) -/

structure Vec3 where
  x : ℝ
  y : ℝ
  z : ℝ

/-- Componentwise dot product, `np.dot`. -/
def Vec3.dot (a b : Vec3) : ℝ :=
  a.x * b.x + a.y * b.y + a.z * b.z

/-- Euclidean magnitude, `np.linalg.norm`. -/
noncomputable def Vec3.norm (v : Vec3) : ℝ :=
  Real.sqrt (v.x ^ 2 + v.y ^ 2 + v.z ^ 2)

/-- Componentwise division by a scalar, numpy `v / s`.  For s = 0 numpy
yields NaN components; the Lean reading x / 0 = 0 is used instead, and
every place the development evaluates this at s = 0 is checked to take the
same control-flow branch as the NaN does in Python. -/
noncomputable def Vec3.sdiv (v : Vec3) (s : ℝ) : Vec3 :=
  ⟨v.x / s, v.y / s, v.z / s⟩

/-! ## Circular orbit propagator (orbit_propagator.py lines 19-69)

The propagator is constructed from altitude_km, inclination_deg and a start
time; `get_position` consumes `elapsed = (time_dt - start_dt).total_seconds()`,
so time is embedded directly as elapsed seconds (a real number, negative for
query times before the start). -/

structure CircularOrbitPropagator where
  altitude_km : ℝ
  inclination_deg : ℝ

namespace CircularOrbitPropagator

/-- orbital_radius = EARTH_RADIUS_KM + altitude_km   (line 36). -/
def orbital_radius (p : CircularOrbitPropagator) : ℝ :=
  EARTH_RADIUS_KM + p.altitude_km

/-- period_seconds = 2 pi sqrt(r^3 / mu)   (line 39). -/
noncomputable def period_seconds (p : CircularOrbitPropagator) : ℝ :=
  2 * Real.pi * Real.sqrt (p.orbital_radius ^ 3 / EARTH_MU)

/-- orbital_period_minutes = period_seconds / 60   (line 40). -/
noncomputable def orbital_period_minutes (p : CircularOrbitPropagator) : ℝ :=
  p.period_seconds / 60

/-- angular_velocity = 2 pi / period_seconds   (line 43). -/
noncomputable def angular_velocity (p : CircularOrbitPropagator) : ℝ :=
  2 * Real.pi / p.period_seconds

/-- np.radians   (line 59). -/
noncomputable def radians (deg : ℝ) : ℝ :=
  deg * (Real.pi / 180)

/-- get_position   (lines 45-66): position on the inclined circular orbit at
`elapsed` seconds past the epoch. -/
noncomputable def get_position (p : CircularOrbitPropagator) (elapsed : ℝ) : Vec3 :=
  let theta := p.angular_velocity * elapsed
  let x_orbit := p.orbital_radius * Real.cos theta
  let y_orbit := p.orbital_radius * Real.sin theta
  let z_orbit : ℝ := 0
  let inc_rad := radians p.inclination_deg
  ⟨x_orbit,
   y_orbit * Real.cos inc_rad - z_orbit * Real.sin inc_rad,
   y_orbit * Real.sin inc_rad + z_orbit * Real.cos inc_rad⟩

end CircularOrbitPropagator

/-- Claim C9, amended: for every circular propagator whose orbital radius
EARTH_RADIUS_KM + altitude_km is nonnegative, and every elapsed time
(negative times included), the magnitude of get_position equals
EARTH_RADIUS_KM + altitude_km exactly, over exact real arithmetic. -/
theorem circular_position_magnitude (p : CircularOrbitPropagator) (elapsed : ℝ)
    (h : 0 ≤ EARTH_RADIUS_KM + p.altitude_km) :
    (p.get_position elapsed).norm = EARTH_RADIUS_KM + p.altitude_km := by
  have hr : p.orbital_radius = EARTH_RADIUS_KM + p.altitude_km := rfl
  unfold CircularOrbitPropagator.get_position Vec3.norm
  set r := p.orbital_radius with hrdef
  set th := p.angular_velocity * elapsed
  set inc := CircularOrbitPropagator.radians p.inclination_deg
  have hsum :
      (r * Real.cos th) ^ 2 +
        (r * Real.sin th * Real.cos inc - 0 * Real.sin inc) ^ 2 +
        (r * Real.sin th * Real.sin inc + 0 * Real.cos inc) ^ 2 = r ^ 2 := by
    have h1 : Real.sin inc ^ 2 + Real.cos inc ^ 2 = 1 := Real.sin_sq_add_cos_sq inc
    have h2 : Real.sin th ^ 2 + Real.cos th ^ 2 = 1 := Real.sin_sq_add_cos_sq th
    linear_combination (r ^ 2 * Real.sin th ^ 2) * h1 + r ^ 2 * h2
  rw [hsum]
  rw [← hr] at h
  simpa using Real.sqrt_sq h

/-- Witness for circular_position_magnitude at altitude 420 km, inclination
51.6 degrees, elapsed 0 s: the magnitude is 6791 km. -/
theorem circular_position_magnitude_witness :
    0 ≤ EARTH_RADIUS_KM + (420 : ℝ) ∧
      ((⟨420, 51.6⟩ : CircularOrbitPropagator).get_position 0).norm
        = EARTH_RADIUS_KM + 420 := by
  refine ⟨by norm_num [EARTH_RADIUS_KM], ?_⟩
  exact circular_position_magnitude ⟨420, 51.6⟩ 0 (by norm_num [EARTH_RADIUS_KM])

/-- Claim C9 as stated is false: with altitude_km = -12742 (so orbital radius
-6371) the magnitude of the position at elapsed 0 is 6371, not
EARTH_RADIUS_KM + altitude_km = -6371. -/
theorem circular_position_magnitude_cex :
    ((⟨-12742, 0⟩ : CircularOrbitPropagator).get_position 0).norm
      ≠ EARTH_RADIUS_KM + (-12742 : ℝ) := by
  have hpos :
      ((⟨-12742, 0⟩ : CircularOrbitPropagator).get_position 0).norm = 6371 := by
    unfold CircularOrbitPropagator.get_position Vec3.norm
    simp only [mul_zero, Real.cos_zero, Real.sin_zero, mul_one, zero_mul,
      zero_add, sub_zero, add_zero]
    have hr : (⟨-12742, 0⟩ : CircularOrbitPropagator).orbital_radius = -6371 := by
      norm_num [CircularOrbitPropagator.orbital_radius, EARTH_RADIUS_KM]
    rw [hr]
    rw [show ((-6371 : ℝ)) ^ 2 + 0 ^ 2 + 0 ^ 2 = 6371 ^ 2 by norm_num]
    exact Real.sqrt_sq (by norm_num)
  rw [hpos]
  norm_num [EARTH_RADIUS_KM]

/-! ## Shadow detector and power model
(orbit_propagator.py lines 104-177, SolarPanelSimulator)

The simulator object carries panel_area and efficiency; is_in_shadow and
calculate_power are embedded as functions of those fields and of the current
satellite position and sun direction. -/

/-- is_in_shadow   (lines 135-157).  The else branch passes
sat_distance^2 - projection^2 to np.sqrt with no clamp; the embedding keeps
the expression exactly as written. -/
noncomputable def is_in_shadow (satellite_pos sun_direction : Vec3) : Bool :=
  let sat_distance := satellite_pos.norm
  let sat_direction := satellite_pos.sdiv sat_distance
  let dot := sat_direction.dot sun_direction
  if dot > 0 then
    false
  else
    let projection := satellite_pos.dot sun_direction
    let perpendicular_distance := Real.sqrt (sat_distance ^ 2 - projection ^ 2)
    decide (perpendicular_distance < EARTH_RADIUS_KM)

/-- The exact argument handed to np.sqrt in the dark-hemisphere branch of
is_in_shadow (line 155): sat_distance^2 - projection^2, with no guard. -/
noncomputable def shadow_sqrt_arg (satellite_pos sun_direction : Vec3) : ℝ :=
  satellite_pos.norm ^ 2 - (satellite_pos.dot sun_direction) ^ 2

/-- calculate_power   (lines 159-177). -/
noncomputable def calculate_power (panel_area panel_efficiency : ℝ)
    (satellite_pos sun_direction : Vec3) (in_shadow : Bool) : ℝ :=
  if in_shadow then 0
  else
    let panel_normal := satellite_pos.sdiv satellite_pos.norm
    let cos_angle := panel_normal.dot sun_direction
    if cos_angle > 0 then
      SOLAR_CONSTANT * panel_area * panel_efficiency * cos_angle
    else 0

/-- Claim C2: calculate_power returns 0 in shadow; otherwise, writing
cos_angle for the dot product of the normalized anti-nadir panel normal with
the sun direction, it returns 0 when cos_angle ≤ 0 and
SOLAR_CONSTANT * area * efficiency * cos_angle when cos_angle > 0. -/
theorem calculate_power_spec (panel_area panel_efficiency : ℝ)
    (satellite_pos sun_direction : Vec3) (in_shadow : Bool) :
    calculate_power panel_area panel_efficiency satellite_pos sun_direction in_shadow
      = if in_shadow then 0
        else if (satellite_pos.sdiv satellite_pos.norm).dot sun_direction ≤ 0 then 0
        else SOLAR_CONSTANT * panel_area * panel_efficiency *
              ((satellite_pos.sdiv satellite_pos.norm).dot sun_direction) := by
  unfold calculate_power
  cases in_shadow with
  | true => simp
  | false =>
    simp only [Bool.false_eq_true, if_false]
    set c := (satellite_pos.sdiv satellite_pos.norm).dot sun_direction with hc
    rcases lt_or_le 0 c with h | h
    · rw [if_pos h, if_neg (not_le.mpr h)]
    · rw [if_neg (not_lt.mpr h), if_pos h]

/-- Claim C3: for a nonzero satellite position and a unit sun direction,
is_in_shadow returns false whenever the unit satellite direction dotted with
the sun direction is positive, and otherwise returns true exactly when
sqrt(sat_distance^2 - projection^2) < EARTH_RADIUS_KM. -/
theorem is_in_shadow_spec (satellite_pos sun_direction : Vec3)
    (hpos : satellite_pos ≠ ⟨0, 0, 0⟩) (hsun : sun_direction.norm = 1) :
    ((satellite_pos.sdiv satellite_pos.norm).dot sun_direction > 0 →
        is_in_shadow satellite_pos sun_direction = false) ∧
    ((satellite_pos.sdiv satellite_pos.norm).dot sun_direction ≤ 0 →
        (is_in_shadow satellite_pos sun_direction = true ↔
          Real.sqrt (satellite_pos.norm ^ 2 - (satellite_pos.dot sun_direction) ^ 2)
            < EARTH_RADIUS_KM)) := by
  constructor
  · intro h
    unfold is_in_shadow
    rw [if_pos h]
  · intro h
    unfold is_in_shadow
    rw [if_neg (not_lt.mpr h)]
    exact decide_eq_true_iff

/-- Witness for is_in_shadow_spec: position (6791, 0, 0), sun direction
(1, 0, 0).  The position is nonzero, the sun direction is a unit vector, and
both conjuncts of the theorem hold there. -/
theorem is_in_shadow_spec_witness :
    ((⟨6791, 0, 0⟩ : Vec3) ≠ ⟨0, 0, 0⟩) ∧ (⟨1, 0, 0⟩ : Vec3).norm = 1 ∧
    ((((⟨6791, 0, 0⟩ : Vec3).sdiv (⟨6791, 0, 0⟩ : Vec3).norm).dot ⟨1, 0, 0⟩ > 0 →
        is_in_shadow ⟨6791, 0, 0⟩ ⟨1, 0, 0⟩ = false) ∧
     (((⟨6791, 0, 0⟩ : Vec3).sdiv (⟨6791, 0, 0⟩ : Vec3).norm).dot ⟨1, 0, 0⟩ ≤ 0 →
        (is_in_shadow ⟨6791, 0, 0⟩ ⟨1, 0, 0⟩ = true ↔
          Real.sqrt ((⟨6791, 0, 0⟩ : Vec3).norm ^ 2 -
              ((⟨6791, 0, 0⟩ : Vec3).dot ⟨1, 0, 0⟩) ^ 2) < EARTH_RADIUS_KM))) := by
  have h1 : (⟨6791, 0, 0⟩ : Vec3) ≠ ⟨0, 0, 0⟩ := by
    intro h
    have := congrArg Vec3.x h
    norm_num at this
  have h2 : (⟨1, 0, 0⟩ : Vec3).norm = 1 := by
    unfold Vec3.norm
    norm_num
  exact ⟨h1, h2, is_in_shadow_spec ⟨6791, 0, 0⟩ ⟨1, 0, 0⟩ h1 h2⟩

/-- Claim C4 evaluated at its failing input: at satellite position (1, 0, 0)
and sun vector (-2, 0, 0) the sunlit-side test fails (the dot product is -2,
not positive), so the dark-hemisphere branch runs, and the argument it hands
to the square root is -3 < 0: no clamp to 0 is applied in the code. -/
theorem shadow_sqrt_arg_unguarded :
    ¬ (((⟨1, 0, 0⟩ : Vec3).sdiv (⟨1, 0, 0⟩ : Vec3).norm).dot ⟨-2, 0, 0⟩ > 0) ∧
      shadow_sqrt_arg ⟨1, 0, 0⟩ ⟨-2, 0, 0⟩ < 0 := by
  have hnorm : (⟨1, 0, 0⟩ : Vec3).norm = 1 := by
    unfold Vec3.norm
    norm_num
  constructor
  · unfold Vec3.sdiv Vec3.dot
    rw [hnorm]
    norm_num
  · unfold shadow_sqrt_arg Vec3.dot
    rw [hnorm]
    norm_num

/-! ## One step of the simulation loop
(orbit_propagator.py lines 187-217)

Each iteration computes the shadow flag, the power, the sun angle
(np.degrees(np.arccos(np.clip(dot, -1, 1)))) and the altitude
(norm - EARTH_RADIUS_KM), and appends them as one results row. -/

/-- np.clip(x, lo, hi). -/
noncomputable def np_clip (x lo hi : ℝ) : ℝ :=
  min (max x lo) hi

/-- np.degrees. -/
noncomputable def np_degrees (x : ℝ) : ℝ :=
  x * (180 / Real.pi)

/-- The per-row payload computed at lines 200-214 (the position components
are carried by the caller and omitted here). -/
structure StepRecord where
  power_W : ℝ
  in_shadow : Bool
  sun_angle_deg : ℝ
  altitude_km : ℝ

/-- The body of one iteration of the while loop (lines 187-217), as a
function of that step's satellite position and sun direction. -/
noncomputable def simulation_step (panel_area panel_efficiency : ℝ)
    (sat_pos sun_dir : Vec3) : StepRecord :=
  let in_shadow := is_in_shadow sat_pos sun_dir
  let power := calculate_power panel_area panel_efficiency sat_pos sun_dir in_shadow
  let panel_normal := sat_pos.sdiv sat_pos.norm
  let sun_angle_deg := np_degrees (Real.arccos (np_clip (panel_normal.dot sun_dir) (-1) 1))
  let altitude := sat_pos.norm - EARTH_RADIUS_KM
  ⟨power, in_shadow, sun_angle_deg, altitude⟩

/-- Claim C8 evaluated at its failing input: when the propagator returns the
zero vector, the loop body does not abort.  is_in_shadow divides by the zero
magnitude (NaN in numpy, read as 0 here; either way the sunlit test fails),
takes the dark branch, finds sqrt(0 - 0) = 0 < 6371 and reports the point as
in shadow; power 0 and altitude -6371 are appended as an ordinary row. -/
theorem simulation_step_zero_position :
    (simulation_step 15 (29 / 100) ⟨0, 0, 0⟩ ⟨1, 0, 0⟩).in_shadow = true ∧
    (simulation_step 15 (29 / 100) ⟨0, 0, 0⟩ ⟨1, 0, 0⟩).power_W = 0 ∧
    (simulation_step 15 (29 / 100) ⟨0, 0, 0⟩ ⟨1, 0, 0⟩).altitude_km = -6371 := by
  have hnorm : (⟨0, 0, 0⟩ : Vec3).norm = 0 := by
    unfold Vec3.norm
    norm_num
  have hdot : ((⟨0, 0, 0⟩ : Vec3).sdiv (⟨0, 0, 0⟩ : Vec3).norm).dot ⟨1, 0, 0⟩ = 0 := by
    unfold Vec3.sdiv Vec3.dot
    rw [hnorm]
    norm_num
  have hshadow : is_in_shadow ⟨0, 0, 0⟩ ⟨1, 0, 0⟩ = true := by
    unfold is_in_shadow
    rw [if_neg (by rw [hdot]; norm_num)]
    rw [decide_eq_true_iff]
    have hproj : (⟨0, 0, 0⟩ : Vec3).dot ⟨1, 0, 0⟩ = 0 := by
      unfold Vec3.dot
      norm_num
    rw [hnorm, hproj]
    rw [show (0 : ℝ) ^ 2 - 0 ^ 2 = 0 by norm_num, Real.sqrt_zero]
    norm_num [EARTH_RADIUS_KM]
  refine ⟨?_, ?_, ?_⟩
  · unfold simulation_step
    simpa using hshadow
  · unfold simulation_step
    simp only [hshadow]
    unfold calculate_power
    simp
  · unfold simulation_step
    simp only [hnorm]
    norm_num [EARTH_RADIUS_KM]

/-! ## The time-stepped loop (orbit_propagator.py lines 179-221)

run_simulation starts at start_dt, ends at start_dt + duration_hours, and
appends one row per iteration while current_dt <= end_dt, advancing by
time_step_seconds.  Times are embedded as rational seconds elapsed since
start_dt, so the loop runs over current = 0, step, 2*step, ... while
current <= duration_hours * 3600.  The while loop always terminates (step
>= 1 second, duration <= 24 hours); it is embedded with a fuel argument
large enough to cover every iteration, which the characterization lemma
below discharges. -/

/-- The while loop of lines 186-217, restricted to the time values it
iterates over: one list entry per appended row. -/
def sim_loop_times (endSec step : ℚ) : ℕ → ℚ → List ℚ
  | 0, _ => []
  | fuel + 1, current =>
      if current ≤ endSec then current :: sim_loop_times endSec step fuel (current + step)
      else []

/-- Number of iterations the while loop performs from a given current time. -/
def iter_count (endSec step current : ℚ) : ℕ :=
  if current ≤ endSec then (⌊(endSec - current) / step⌋).toNat + 1 else 0

/-- run_simulation's sampled times for a run of duration_hours hours with a
step of time_step_seconds seconds: the loop from current = 0 with enough
fuel for every iteration. -/
def run_simulation_times (duration_hours time_step_seconds : ℚ) : List ℚ :=
  sim_loop_times (duration_hours * 3600) time_step_seconds
    ((⌊duration_hours * 3600 / time_step_seconds⌋).toNat + 2) 0

theorem range_map_shift (step c : ℚ) (m : ℕ) :
    (List.range (m + 1)).map (fun j : ℕ => c + (j : ℚ) * step)
      = c :: (List.range m).map (fun j : ℕ => (c + step) + (j : ℚ) * step) := by
  rw [List.range_succ_eq_map]
  simp only [List.map_cons, List.map_map, Nat.cast_zero, zero_mul, add_zero]
  refine List.cons_eq_cons.mpr ⟨rfl, ?_⟩
  apply List.map_congr_left
  intro j hj
  simp only [Function.comp_apply, Nat.succ_eq_add_one]
  push_cast
  ring

theorem sim_loop_times_eq (endSec step : ℚ) (hstep : 0 < step) :
    ∀ fuel current, iter_count endSec step current ≤ fuel →
      sim_loop_times endSec step fuel current =
        (List.range (iter_count endSec step current)).map
          (fun j : ℕ => current + (j : ℚ) * step) := by
  intro fuel
  induction fuel with
  | zero =>
    intro current hle
    have h0 : iter_count endSec step current = 0 := Nat.le_zero.mp hle
    rw [h0]
    rfl
  | succ n ih =>
    intro current hle
    by_cases hcur : current ≤ endSec
    · have hnonneg : 0 ≤ (endSec - current) / step :=
        div_nonneg (by linarith) (le_of_lt hstep)
      have hfloor0 : 0 ≤ ⌊(endSec - current) / step⌋ := Int.floor_nonneg.mpr hnonneg
      have hcount : iter_count endSec step current
          = (⌊(endSec - current) / step⌋).toNat + 1 := by
        unfold iter_count
        rw [if_pos hcur]
      rw [hcount]
      unfold sim_loop_times
      rw [if_pos hcur]
      by_cases hnext : current + step ≤ endSec
      · have hnn : 0 ≤ (endSec - (current + step)) / step :=
          div_nonneg (by linarith) (le_of_lt hstep)
        have h2 : 0 ≤ ⌊(endSec - (current + step)) / step⌋ := Int.floor_nonneg.mpr hnn
        have hfl : ⌊(endSec - current) / step⌋ = ⌊(endSec - (current + step)) / step⌋ + 1 := by
          have harg : (endSec - current) / step = (endSec - (current + step)) / step + 1 := by
            field_simp
            ring
          rw [harg, Int.floor_add_one]
        have hcount2 : iter_count endSec step (current + step)
            = (⌊(endSec - (current + step)) / step⌋).toNat + 1 := by
          unfold iter_count
          rw [if_pos hnext]
        have hto : (⌊(endSec - current) / step⌋).toNat
            = (⌊(endSec - (current + step)) / step⌋).toNat + 1 := by
          rw [hfl]
          omega
        have htail := ih (current + step) (by omega)
        rw [hto,
          range_map_shift step current ((⌊(endSec - (current + step)) / step⌋).toNat + 1),
          htail, hcount2]
      · have hsmall : (endSec - current) / step < 1 := by
          rw [div_lt_one hstep]
          linarith
        have hfl0 : ⌊(endSec - current) / step⌋ = 0 := by
          apply Int.floor_eq_zero_iff.mpr
          exact ⟨hnonneg, hsmall⟩
        rw [hfl0]
        have htail0 : iter_count endSec step (current + step) = 0 := by
          unfold iter_count
          rw [if_neg hnext]
        have htl := ih (current + step) (by rw [htail0]; exact Nat.zero_le n)
        rw [htl, htail0]
        simp [List.range_succ]
    · have h0 : iter_count endSec step current = 0 := by
        unfold iter_count
        rw [if_neg hcur]
      rw [h0]
      unfold sim_loop_times
      rw [if_neg hcur]
      rfl

theorem run_simulation_times_closed_form (duration_hours : ℚ) (time_step_seconds : ℕ)
    (hd1 : 1 / 10 ≤ duration_hours) (hs1 : 1 ≤ time_step_seconds) :
    run_simulation_times duration_hours (time_step_seconds : ℚ)
      = (List.range ((⌊duration_hours * 3600 / (time_step_seconds : ℚ)⌋).toNat + 1)).map
          (fun j : ℕ => (j : ℚ) * (time_step_seconds : ℚ)) := by
  have hstep : (0 : ℚ) < (time_step_seconds : ℚ) := by
    exact_mod_cast Nat.pos_of_ne_zero (by omega)
  have hend : (0 : ℚ) ≤ duration_hours * 3600 := by linarith
  have hcnt : iter_count (duration_hours * 3600) (time_step_seconds : ℚ) 0
      = (⌊duration_hours * 3600 / (time_step_seconds : ℚ)⌋).toNat + 1 := by
    unfold iter_count
    rw [if_pos hend, sub_zero]
  have hfuel : iter_count (duration_hours * 3600) (time_step_seconds : ℚ) 0
      ≤ (⌊duration_hours * 3600 / (time_step_seconds : ℚ)⌋).toNat + 2 := by
    rw [hcnt]
    omega
  unfold run_simulation_times
  rw [sim_loop_times_eq (duration_hours * 3600) (time_step_seconds : ℚ) hstep _ 0 hfuel,
    hcnt]
  apply List.map_congr_left
  intro j hj
  rw [zero_add]

/-- Claim C5: for duration_hours in [0.1, 24] and time_step_seconds in
[1, 300], the loop samples the closed interval from 0 to
duration_hours * 3600 seconds: it produces exactly
floor(duration_hours * 3600 / time_step_seconds) + 1 points, at least one, in
strictly ascending time order, starting at 0, every point lying in the
closed interval, and every grid time up to and including the endpoint
(current_time = end included) being sampled. -/
theorem run_simulation_times_spec (duration_hours : ℚ) (time_step_seconds : ℕ)
    (hd1 : 1 / 10 ≤ duration_hours) (hd2 : duration_hours ≤ 24)
    (hs1 : 1 ≤ time_step_seconds) (hs2 : time_step_seconds ≤ 300) :
    (run_simulation_times duration_hours (time_step_seconds : ℚ)).length
        = (⌊duration_hours * 3600 / (time_step_seconds : ℚ)⌋).toNat + 1 ∧
    1 ≤ (run_simulation_times duration_hours (time_step_seconds : ℚ)).length ∧
    List.Sorted (· < ·) (run_simulation_times duration_hours (time_step_seconds : ℚ)) ∧
    (run_simulation_times duration_hours (time_step_seconds : ℚ)).head? = some 0 ∧
    (∀ t ∈ run_simulation_times duration_hours (time_step_seconds : ℚ),
        0 ≤ t ∧ t ≤ duration_hours * 3600) ∧
    (∀ j : ℕ, (j : ℚ) * (time_step_seconds : ℚ) ≤ duration_hours * 3600 →
        (j : ℚ) * (time_step_seconds : ℚ)
          ∈ run_simulation_times duration_hours (time_step_seconds : ℚ)) := by
  have hstep : (0 : ℚ) < (time_step_seconds : ℚ) := by
    exact_mod_cast Nat.pos_of_ne_zero (by omega)
  have hend : (0 : ℚ) ≤ duration_hours * 3600 := by linarith
  have hform := run_simulation_times_closed_form duration_hours time_step_seconds hd1 hs1
  have hflnn : 0 ≤ ⌊duration_hours * 3600 / (time_step_seconds : ℚ)⌋ :=
    Int.floor_nonneg.mpr (div_nonneg hend (le_of_lt hstep))
  refine ⟨?_, ?_, ?_, ?_, ?_, ?_⟩
  · rw [hform]
    simp
  · rw [hform]
    simp
  · rw [hform]
    apply List.Pairwise.map
    · intro a b hab
      exact mul_lt_mul_of_pos_right (by exact_mod_cast hab) hstep
    · exact List.pairwise_lt_range _
  · rw [hform, List.range_succ_eq_map]
    simp
  · intro t ht
    rw [hform] at ht
    rcases List.mem_map.mp ht with ⟨j, hj, rfl⟩
    have hjlt : j < (⌊duration_hours * 3600 / (time_step_seconds : ℚ)⌋).toNat + 1 :=
      List.mem_range.mp hj
    have hjle : (j : ℤ) ≤ ⌊duration_hours * 3600 / (time_step_seconds : ℚ)⌋ := by
      omega
    have hjq : (j : ℚ) ≤ duration_hours * 3600 / (time_step_seconds : ℚ) := by
      calc (j : ℚ) ≤ (⌊duration_hours * 3600 / (time_step_seconds : ℚ)⌋ : ℚ) := by
            exact_mod_cast hjle
        _ ≤ duration_hours * 3600 / (time_step_seconds : ℚ) := Int.floor_le _
    constructor
    · positivity
    · calc (j : ℚ) * (time_step_seconds : ℚ)
          ≤ (duration_hours * 3600 / (time_step_seconds : ℚ)) * (time_step_seconds : ℚ) :=
            mul_le_mul_of_nonneg_right hjq (le_of_lt hstep)
        _ = duration_hours * 3600 := div_mul_cancel₀ _ (ne_of_gt hstep)
  · intro j hjle
    rw [hform]
    apply List.mem_map.mpr
    refine ⟨j, List.mem_range.mpr ?_, rfl⟩
    have hjq : (j : ℚ) ≤ duration_hours * 3600 / (time_step_seconds : ℚ) :=
      (le_div_iff₀ hstep).mpr hjle
    have : (j : ℤ) ≤ ⌊duration_hours * 3600 / (time_step_seconds : ℚ)⌋ :=
      Int.le_floor.mpr (by exact_mod_cast hjq)
    omega

/-- Witness for run_simulation_times_spec at duration 3 h, step 60 s (so 181
points). -/
theorem run_simulation_times_spec_witness :
    ((1 : ℚ) / 10 ≤ 3 ∧ (3 : ℚ) ≤ 24 ∧ 1 ≤ 60 ∧ 60 ≤ 300) ∧
    ((run_simulation_times 3 ((60 : ℕ) : ℚ)).length
        = (⌊(3 : ℚ) * 3600 / ((60 : ℕ) : ℚ)⌋).toNat + 1 ∧
      1 ≤ (run_simulation_times 3 ((60 : ℕ) : ℚ)).length ∧
      List.Sorted (· < ·) (run_simulation_times 3 ((60 : ℕ) : ℚ)) ∧
      (run_simulation_times 3 ((60 : ℕ) : ℚ)).head? = some 0 ∧
      (∀ t ∈ run_simulation_times 3 ((60 : ℕ) : ℚ), 0 ≤ t ∧ t ≤ (3 : ℚ) * 3600) ∧
      (∀ j : ℕ, (j : ℚ) * ((60 : ℕ) : ℚ) ≤ (3 : ℚ) * 3600 →
          (j : ℚ) * ((60 : ℕ) : ℚ) ∈ run_simulation_times 3 ((60 : ℕ) : ℚ))) := by
  refine ⟨by norm_num, ?_⟩
  exact run_simulation_times_spec 3 60 (by norm_num) (by norm_num)
    (by norm_num) (by norm_num)

/-! ## Service layer (simulator.py)

The statistics and downsampling layer is embedded over the rationals so it
is executable.  A results row carries the fields the service reads. -/

/-- One row of the results DataFrame, restricted to the fields
calculate_statistics and prepare_data_points read. -/
structure DataPointRec where
  power_W : ℚ
  in_shadow : Bool
  sun_angle_deg : ℚ
  altitude_km : ℚ
deriving DecidableEq

/-- pandas Series.max over a nonempty column (the service only applies it to
the nonempty results frame; the empty case is given the junk value 0). -/
def series_max : List ℚ → ℚ
  | [] => 0
  | a :: rest => rest.foldl max a

/-- pandas Series.min over a nonempty column. -/
def series_min : List ℚ → ℚ
  | [] => 0
  | a :: rest => rest.foldl min a

/-- pandas Series.mean over a nonempty column. -/
def series_mean (l : List ℚ) : ℚ :=
  l.sum / l.length

/-- df.in_shadow.sum()   (simulator.py line 101): the number of rows flagged
in shadow. -/
def shadow_count (df : List DataPointRec) : ℕ :=
  (df.filter (fun p => p.in_shadow)).length

/-- The Statistics record (schemas.py lines 58-66). -/
structure SimulationStatisticsRec where
  max_power_W : ℚ
  avg_power_W : ℚ
  min_altitude_km : ℚ
  max_altitude_km : ℚ
  eclipse_time_seconds : ℚ
  eclipse_percentage : ℚ
  orbital_period_minutes : ℚ
  total_data_points : ℕ
deriving DecidableEq

/-- calculate_statistics   (simulator.py lines 100-111). -/
def calculate_statistics (df : List DataPointRec)
    (orbital_period_minutes : ℚ) (time_step_seconds : ℚ) : SimulationStatisticsRec :=
  { max_power_W := series_max (df.map (fun p => p.power_W))
    avg_power_W := series_mean (df.map (fun p => p.power_W))
    min_altitude_km := series_min (df.map (fun p => p.altitude_km))
    max_altitude_km := series_max (df.map (fun p => p.altitude_km))
    eclipse_time_seconds := (shadow_count df : ℚ) * time_step_seconds
    eclipse_percentage := (shadow_count df : ℚ) / (df.length : ℚ) * 100
    orbital_period_minutes := orbital_period_minutes
    total_data_points := df.length }

/-- Claim C6: on a nonempty results frame with a positive step,
eclipse_time_seconds is the shadow count times the step, and
eclipse_percentage is shadow_count / total * 100, always within [0, 100]. -/
theorem calculate_statistics_eclipse (df : List DataPointRec)
    (orbital_period_minutes time_step_seconds : ℚ)
    (hne : df ≠ []) (hstep : 0 < time_step_seconds) :
    (calculate_statistics df orbital_period_minutes time_step_seconds).eclipse_time_seconds
        = (shadow_count df : ℚ) * time_step_seconds ∧
    (calculate_statistics df orbital_period_minutes time_step_seconds).eclipse_percentage
        = (shadow_count df : ℚ) / (df.length : ℚ) * 100 ∧
    0 ≤ (calculate_statistics df orbital_period_minutes time_step_seconds).eclipse_percentage ∧
    (calculate_statistics df orbital_period_minutes time_step_seconds).eclipse_percentage
        ≤ 100 := by
  have hlen : 0 < df.length := List.length_pos.mpr hne
  have hlenq : (0 : ℚ) < (df.length : ℚ) := by exact_mod_cast hlen
  have hcount : shadow_count df ≤ df.length := by
    unfold shadow_count
    exact List.length_filter_le _ _
  refine ⟨rfl, rfl, ?_, ?_⟩
  · unfold calculate_statistics
    positivity
  · unfold calculate_statistics
    have hratio1 : (shadow_count df : ℚ) / (df.length : ℚ) ≤ 1 := by
      rw [div_le_one hlenq]
      exact_mod_cast hcount
    calc (shadow_count df : ℚ) / (df.length : ℚ) * 100 ≤ 1 * 100 := by
          apply mul_le_mul_of_nonneg_right hratio1
          norm_num
      _ = 100 := by norm_num

/-- Witness for calculate_statistics_eclipse: two rows, one in shadow, step
60 s, giving eclipse time 60 s and percentage 50. -/
theorem calculate_statistics_eclipse_witness :
    ([⟨0, true, 90, 420⟩, ⟨100, false, 10, 420⟩] : List DataPointRec) ≠ [] ∧
      (0 : ℚ) < 60 ∧
      ((calculate_statistics [⟨0, true, 90, 420⟩, ⟨100, false, 10, 420⟩] 92 60).eclipse_time_seconds
          = (shadow_count [⟨0, true, 90, 420⟩, ⟨100, false, 10, 420⟩] : ℚ) * 60 ∧
        (calculate_statistics [⟨0, true, 90, 420⟩, ⟨100, false, 10, 420⟩] 92 60).eclipse_percentage
          = (shadow_count [⟨0, true, 90, 420⟩, ⟨100, false, 10, 420⟩] : ℚ)
              / (([⟨0, true, 90, 420⟩, ⟨100, false, 10, 420⟩] : List DataPointRec).length : ℚ)
              * 100 ∧
        0 ≤ (calculate_statistics [⟨0, true, 90, 420⟩, ⟨100, false, 10, 420⟩] 92
              60).eclipse_percentage ∧
        (calculate_statistics [⟨0, true, 90, 420⟩, ⟨100, false, 10, 420⟩] 92
              60).eclipse_percentage ≤ 100) := by
  refine ⟨by decide, by norm_num, ?_⟩
  exact calculate_statistics_eclipse [⟨0, true, 90, 420⟩, ⟨100, false, 10, 420⟩] 92 60
    (by decide) (by norm_num)

/-- df.iloc starting at row 0 and keeping every step-th row
(simulator.py line 116). -/
def iloc_every (step : ℕ) (l : List DataPointRec) : List DataPointRec :=
  (l.enum.filter (fun p => p.1 % step = 0)).map (fun p => p.2)

/-- prepare_data_points   (simulator.py lines 113-128): if the frame exceeds
max_points rows, keep every (len / max_points)-th row; the per-row DataPoint
conversion preserves the rows one for one. -/
def prepare_data_points (df : List DataPointRec) (max_points : ℕ) : List DataPointRec :=
  if df.length > max_points then iloc_every (df.length / max_points) df else df

theorem iloc_every_one (l : List DataPointRec) : iloc_every 1 l = l := by
  unfold iloc_every
  have hfilter : l.enum.filter (fun p => p.1 % 1 = 0) = l.enum := by
    apply List.filter_eq_self.mpr
    intro a ha
    simp [Nat.mod_one]
  rw [hfilter, List.enum_map_snd]

/-- Claim C10: for a results frame of length strictly between 500 and 1000,
prepare_data_points with max_points = 500 computes stride len / 500 = 1 and
returns every row: the delivered sequence can hold up to 999 points. -/
theorem prepare_data_points_between (df : List DataPointRec)
    (h1 : 500 < df.length) (h2 : df.length < 1000) :
    prepare_data_points df 500 = df := by
  unfold prepare_data_points
  rw [if_pos h1]
  have hstride : df.length / 500 = 1 := by omega
  rw [hstride]
  exact iloc_every_one df

/-- Witness for prepare_data_points_between on a concrete frame of 501
rows. -/
theorem prepare_data_points_between_witness :
    500 < (List.replicate 501 (⟨0, false, 0, 420⟩ : DataPointRec)).length ∧
    (List.replicate 501 (⟨0, false, 0, 420⟩ : DataPointRec)).length < 1000 ∧
    prepare_data_points (List.replicate 501 (⟨0, false, 0, 420⟩ : DataPointRec)) 500
      = List.replicate 501 (⟨0, false, 0, 420⟩ : DataPointRec) := by
  have hlen : (List.replicate 501 (⟨0, false, 0, 420⟩ : DataPointRec)).length = 501 :=
    List.length_replicate 501 _
  refine ⟨by rw [hlen]; omega, by rw [hlen]; omega, ?_⟩
  exact prepare_data_points_between _ (by rw [hlen]; omega) (by rw [hlen]; omega)

/-! ## SimulationService.run_simulation (simulator.py lines 20-98)

The request carries the fields the control flow reads; the external,
fallible collaborators (propagator construction and stepping over skyfield
and SGP4, matplotlib rendering, CSV writing) are an oracle of Except-valued
outcomes, mirroring Python exceptions.  Note the success path of the source
calls self.save_to_database (line 62) while the class only defines
_save_to_database (line 165), so that attribute lookup itself raises. -/

/-- The request fields SimulationService.run_simulation branches on
(schemas.py lines 5-49). -/
structure SimulationRequest where
  propagation_method : String
  generate_plot : Bool
  export_csv : Bool
  time_step_seconds : ℚ

/-- SimulationResponse (schemas.py lines 68-76), without the id and
timestamp fields, which carry no verified content. -/
structure SimulationResponse where
  status : String
  message : String
  statistics : Option SimulationStatisticsRec
  data_points : Option (List DataPointRec)
  plot_url : Option String
  csv_url : Option String
deriving DecidableEq

/-- The callable attributes the SimulationService class defines
(simulator.py lines 15-225).  There is no save_to_database entry: the class
defines _save_to_database instead. -/
def simulation_service_methods : List String :=
  ["__init__", "run_simulation", "calculate_statistics", "prepare_data_points",
   "generate_plot", "export_csv", "_save_to_database"]

/-- Python attribute lookup on the service object: a missing name raises
AttributeError at the call site. -/
def resolve_method (name : String) : Except String Unit :=
  if simulation_service_methods.contains name then Except.ok ()
  else Except.error ("AttributeError: SimulationService object has no attribute " ++ name)

/-- Oracle for the fallible external stages of one run. -/
structure RunEnv where
  build_propagator : Except String Unit
  run_steps : Except String (List DataPointRec)
  orbital_period_minutes : ℚ
  render_plot : Except String String
  write_csv : Except String String

/-- The try block of SimulationService.run_simulation (lines 23-80), in
source order: construct the propagator, run the stepping loop, compute
statistics, render the plot and the CSV when requested, downsample, then
invoke self.save_to_database - whose lookup raises - and only then build the
success response. -/
def run_simulation_body (req : SimulationRequest) (env : RunEnv) :
    Except String
      (SimulationStatisticsRec × List DataPointRec × Option String × Option String) := do
  let () ← env.build_propagator
  let results_df ← env.run_steps
  let statistics :=
    calculate_statistics results_df env.orbital_period_minutes req.time_step_seconds
  let plot_url ← if req.generate_plot then do
      let u ← env.render_plot
      pure (some u)
    else pure none
  let csv_url ← if req.export_csv then do
      let u ← env.write_csv
      pure (some u)
    else pure none
  let data_points := prepare_data_points results_df 500
  let () ← resolve_method "save_to_database"
  pure (statistics, data_points, plot_url, csv_url)

/-- SimulationService.run_simulation (lines 20-98): the except clause
catches every exception raised in the try block (the failure-recording
helper _save_to_database swallows its own database errors internally, lines
221-225, so nothing propagates), and an error response carrying the message
and neither statistics nor data points is returned. -/
def service_run_simulation (req : SimulationRequest) (env : RunEnv) : SimulationResponse :=
  match run_simulation_body req env with
  | Except.ok (statistics, data_points, plot_url, csv_url) =>
      { status := "success"
        message := "Simulation completed successfully"
        statistics := some statistics
        data_points := some data_points
        plot_url := plot_url
        csv_url := csv_url }
  | Except.error e =>
      { status := "error"
        message := "Simulation failed: " ++ e
        statistics := none
        data_points := none
        plot_url := none
        csv_url := none }

/-- Claim C7: whenever any stage of the run raises (construction, a
simulation step, or any later stage of the try block), run_simulation
returns a response with status error, carrying the message and neither a
statistics record nor a data-point sequence; being a total function, it
propagates no exception to its caller. -/
theorem service_error_response (req : SimulationRequest) (env : RunEnv) (e : String)
    (h : run_simulation_body req env = Except.error e) :
    service_run_simulation req env =
      { status := "error"
        message := "Simulation failed: " ++ e
        statistics := none
        data_points := none
        plot_url := none
        csv_url := none } := by
  unfold service_run_simulation
  rw [h]

/-- A request with every flag set, used to evaluate the service model. -/
def example_request : SimulationRequest :=
  { propagation_method := "circular"
    generate_plot := true
    export_csv := true
    time_step_seconds := 60 }

/-- An oracle on which propagator construction raises at once. -/
def construction_fails_env : RunEnv :=
  { build_propagator := Except.error "propagation failure"
    run_steps := Except.ok []
    orbital_period_minutes := 92
    render_plot := Except.ok "/outputs/sim_plot.png"
    write_csv := Except.ok "/outputs/sim_data.csv" }

/-- Witness for service_error_response: a run whose propagator construction
raises yields exactly the all-none error response. -/
theorem service_error_response_witness :
    run_simulation_body example_request construction_fails_env
        = Except.error "propagation failure" ∧
    service_run_simulation example_request construction_fails_env =
      { status := "error"
        message := "Simulation failed: propagation failure"
        statistics := none
        data_points := none
        plot_url := none
        csv_url := none } :=
  ⟨rfl, service_error_response example_request construction_fails_env
    "propagation failure" rfl⟩

/-- An oracle on which every external stage succeeds: construction and
stepping return normally (two rows), plotting and CSV export both return
URLs. -/
def all_ok_env : RunEnv :=
  { build_propagator := Except.ok ()
    run_steps := Except.ok [⟨0, true, 90, 420⟩, ⟨100, false, 10, 420⟩]
    orbital_period_minutes := 92
    render_plot := Except.ok "/outputs/sim_plot.png"
    write_csv := Except.ok "/outputs/sim_data.csv" }

/-- Claim C1 evaluated at its failing input: on a run in which propagator
construction, the stepping loop, statistics computation and the requested
plot and CSV generation all complete without raising, the success path still
calls the undefined attribute save_to_database; the AttributeError is caught
and the response has status error with no statistics and no data points, so
the claimed success response is never produced. -/
theorem run_simulation_success_unreachable :
    (service_run_simulation example_request all_ok_env).status = "error" ∧
    (service_run_simulation example_request all_ok_env).statistics = none ∧
    (service_run_simulation example_request all_ok_env).data_points = none := by
  refine ⟨?_, ?_, ?_⟩ <;> rfl
